import Mathlib

/-!
Verification development for the PySEAD 3D truss solver (`Truss_3D.py`).

The solver is shallowly embedded over exact rational arithmetic: numpy float
arrays become `List ℚ` / `List (List ℚ)`, numpy 2-d element matrices become
`Matrix (Fin 6) (Fin 6) ℚ`, Python dictionaries become association lists
`List (ℕ × _)` with first-match lookup and insertion-order iteration, and the
Python exceptions that the code can raise (`KeyError`, `IndexError`,
`numpy.linalg.LinAlgError`, `TypeError`, `NameError`) become an explicit error
type threaded through `Except`.  `np.sqrt` is modelled by `Rat.sqrt`, which is
exact on perfect-square radicands (all geometric scenarios analysed here are
axis-aligned, so their radicands are perfect squares).
-/

open Matrix

/-- Exceptions observable from the Python code. -/
inductive PyErr where
  | keyError : ℕ → PyErr
  | indexError : PyErr
  | linAlgError : PyErr
  | typeError : PyErr
  | nameError : PyErr
deriving DecidableEq, Repr

deriving instance DecidableEq for Except

/-- A coordinate, force or restraint-flag triple. -/
abbrev Triple := ℚ × ℚ × ℚ

/-- The constructor input of `Truss_3D.__init__`: each Python dictionary is an
association list in insertion order. -/
structure Truss_3D where
  nodes : List (ℕ × Triple)
  elements : List (ℕ × (ℕ × ℕ))
  supports : List (ℕ × Triple)
  forces : List (ℕ × Triple)
  elasticity : List (ℕ × ℚ)
  cross_area : List (ℕ × ℚ)
deriving Repr

/-- Python dictionary lookup `d[k]`: first matching key, `none` is a `KeyError`. -/
def dget (d : List (ℕ × α)) (k : ℕ) : Option α :=
  (d.find? (fun p => p.1 == k)).map Prod.snd

/-- Turn an `Option` into `Except`, raising the given error on `none`. -/
def okOr (e : PyErr) : Option α → Except PyErr α
  | some a => .ok a
  | none => .error e

/-- Numpy/Python sequence read `l[idx]` with negative-index wrap-around and
`IndexError` out of range. -/
def npGet (l : List α) (idx : ℤ) : Except PyErr α :=
  let j : ℤ := if idx < 0 then idx + l.length else idx
  match l.get? j.toNat with
  | some x => if 0 ≤ j then .ok x else .error .indexError
  | none => .error .indexError

/-- Numpy array write `l[idx] = v` with negative-index wrap-around and
`IndexError` out of range. -/
def npSet (l : List ℚ) (idx : ℤ) (v : ℚ) : Except PyErr (List ℚ) :=
  let j : ℤ := if idx < 0 then idx + l.length else idx
  if 0 ≤ j ∧ j < l.length then .ok (l.set j.toNat v) else .error .indexError

/-- `np.zeros([n, n])`. -/
def zerosMat (n : ℕ) : List (List ℚ) :=
  List.replicate n (List.replicate n (0 : ℚ))

/-- Embeds `__Direction_Cosines` (`Truss_3D.py` lines 49-69): looks up the
element's end nodes, computes the length by `np.sqrt` of the squared norm
(modelled by `Rat.sqrt`, exact on perfect squares) and divides the coordinate
differences by that length.  The source performs no zero-length check: in
floats a zero length yields `0.0/0.0 = nan` without an exception, and in this
exact model division by zero yields `0`; either way the function returns
normally. -/
def Direction_Cosines (tr : Truss_3D) (element : ℕ) : Except PyErr (ℚ × ℚ × ℚ × ℚ) :=
  match dget tr.elements element with
  | none => .error (.keyError element)
  | some conn =>
    match dget tr.nodes conn.1 with
    | none => .error (.keyError conn.1)
    | some from_point =>
      match dget tr.nodes conn.2 with
      | none => .error (.keyError conn.2)
      | some to_point =>
        let x1 := from_point.1
        let y1 := from_point.2.1
        let z1 := from_point.2.2
        let x2 := to_point.1
        let y2 := to_point.2.1
        let z2 := to_point.2.2
        let length := Rat.sqrt ((x2-x1)^2 + (y2-y1)^2 + (z2-z1)^2)
        .ok ((x2-x1)/length, (y2-y1)/length, (z2-z1)/length, length)

/-- The 2×6 transformation matrix `T` of the source (lines 76-77). -/
def Tmat (cx cy cz : ℚ) : Matrix (Fin 2) (Fin 6) ℚ :=
  !![cx, cy, cz, 0, 0, 0; 0, 0, 0, cx, cy, cz]

/-- The local axial matrix `c * [[1,-1],[-1,1]]` of the source (lines 74-75),
with `c = E*A/L` for stiffness and `c = E/L` for stress. -/
def kLocal (c : ℚ) : Matrix (Fin 2) (Fin 2) ℚ := c • !![1, -1; -1, 1]

/-- The 6×6 element stiffness `K = T.T.dot(k).dot(T)` (line 78). -/
def stiffK (cx cy cz E A L : ℚ) : Matrix (Fin 6) (Fin 6) ℚ :=
  (Tmat cx cy cz)ᵀ * kLocal (E * A / L) * Tmat cx cy cz

/-- Embeds `__Assemble_Stiffness_Matrix` (lines 72-79). -/
def Assemble_Stiffness_Matrix (tr : Truss_3D) (element : ℕ) :
    Except PyErr (Matrix (Fin 6) (Fin 6) ℚ) :=
  match Direction_Cosines tr element with
  | .error e => .error e
  | .ok (cx, cy, cz, L) =>
    match dget tr.elasticity element with
    | none => .error (.keyError element)
    | some E =>
      match dget tr.cross_area element with
      | none => .error (.keyError element)
      | some A => .ok (stiffK cx cy cz E A L)

/-- Adds `c b` to the entry at position `b` of a row (entries visited from
index `b₀` upward). -/
def addContribRow (c : ℕ → ℚ) : ℕ → List ℚ → List ℚ
  | _, [] => []
  | b, v :: rest => (v + c b) :: addContribRow c (b+1) rest

/-- Adds `c a b` to every entry `(a, b)` of a dense matrix. -/
def addContrib (c : ℕ → ℕ → ℚ) : ℕ → List (List ℚ) → List (List ℚ)
  | _, [] => []
  | a, row :: rest => addContribRow (c a) 0 row :: addContrib c (a+1) rest

/-- Position of the last occurrence of `a` in the 6-entry dof vector; with
repeated fancy indices numpy's `+=` keeps the last write, which this models. -/
def lastIdx (eff : Fin 6 → ℤ) (a : ℤ) : Option (Fin 6) :=
  (List.finRange 6).reverse.find? (fun p => eff p == a)

/-- The contribution scattered by `K[np.ix_(dofs,dofs)] += k` (lines 82-85)
into global entry `(a, b)` of an `n × n` matrix, for the dof list
`[3i-3, 3i-2, 3i-1, 3j-3, 3j-2, 3j-1]` (negative entries wrap, as numpy
indices do). -/
def elemContrib (n : ℕ) (k : Matrix (Fin 6) (Fin 6) ℚ) (i j : ℕ) (a b : ℕ) : ℚ :=
  let dofs : Fin 6 → ℤ :=
    ![3*(i:ℤ)-3, 3*(i:ℤ)-2, 3*(i:ℤ)-1, 3*(j:ℤ)-3, 3*(j:ℤ)-2, 3*(j:ℤ)-1]
  let eff : Fin 6 → ℤ := fun p => if dofs p < 0 then dofs p + n else dofs p
  match lastIdx eff (a : ℤ), lastIdx eff (b : ℤ) with
  | some p, some q => k p q
  | _, _ => 0

/-- Embeds `__Assemble_Global_Stiffness` (lines 82-85). -/
def Assemble_Global_Stiffness (K : List (List ℚ)) (k : Matrix (Fin 6) (Fin 6) ℚ)
    (i j : ℕ) : List (List ℚ) :=
  addContrib (elemContrib K.length k i j) 0 K

/-- The `for i, dof in enumerate(dofs): if dof == 1: append(i + 1)` loop of
`__Support_Vector` (lines 96-100). -/
def collectOnes : ℕ → List ℚ → List ℕ
  | _, [] => []
  | i, v :: rest => if v = 1 then (i+1) :: collectOnes (i+1) rest
                    else collectOnes (i+1) rest

/-- Embeds `__Support_Vector` (lines 88-102).  Note the source writes
`dofs[dof * 3 - 1] = restrained_dofs[dof][1]` — the third (z) slot is filled
from the second flag, not the third. -/
def Support_Vector (restrained_dofs : List (ℕ × Triple))
    (nodes : List (ℕ × Triple)) : Except PyErr (List ℕ) := do
  let dofs0 : List ℚ := List.replicate (3 * nodes.length) 0
  let dofs ← restrained_dofs.foldlM (fun d p => do
    let d1 ← npSet d (3 * (p.1 : ℤ) - 3) p.2.1
    let d2 ← npSet d1 (3 * (p.1 : ℤ) - 2) p.2.2.1
    npSet d2 (3 * (p.1 : ℤ) - 1) p.2.2.1) dofs0
  pure (collectOnes 0 dofs)

/-- `np.delete(l, obj, axis=0)` for a list of (0-based, in-range) indices,
visiting positions from `i₀` upward. -/
def removeIdxs (idxs : List ℕ) : ℕ → List α → List α
  | _, [] => []
  | i, x :: rest => if i ∈ idxs then removeIdxs idxs (i+1) rest
                    else x :: removeIdxs idxs (i+1) rest

/-- Embeds `__Apply_Boundary_Conditions` (lines 105-113): delete the rows and
then the columns at the (1-based) restrained dof indices. -/
def Apply_Boundary_Conditions (restrained_dofs : List ℕ)
    (K_global : List (List ℚ)) : List (List ℚ) :=
  let dofs := restrained_dofs.map (fun j => j - 1)
  (removeIdxs dofs 0 K_global).map (fun row => removeIdxs dofs 0 row)

/-- Embeds `__Assemble_Force_Vector` (lines 116-135). -/
def Assemble_Force_Vector (forces : List (ℕ × Triple)) (restrained_dofs : List ℕ)
    (nodes : List (ℕ × Triple)) : Except PyErr (List ℚ) := do
  let f0 : List ℚ := List.replicate (3 * nodes.length) 0
  let f ← forces.foldlM (fun f p => do
    let f1 ← npSet f (3 * (p.1 : ℤ) - 3) p.2.1
    let f2 ← npSet f1 (3 * (p.1 : ℤ) - 2) p.2.2.1
    npSet f2 (3 * (p.1 : ℤ) - 1) p.2.2.2) f0
  pure (removeIdxs (restrained_dofs.map (fun j => j - 1)) 0 f)

/-- The scatter loop of `__Truss_Global_Displacement` (lines 149-154): build
`n` entries starting at global index `i`, placing `0` at restrained indices
and consuming `u` from position `j` at free indices (`IndexError` if `u` runs
out, as for the numpy read `displacements[j]`). -/
def expandDisp (sv : List ℕ) (u : List ℚ) : ℕ → ℕ → ℕ → Except PyErr (List ℚ)
  | 0, _, _ => .ok []
  | n+1, i, j =>
    if i ∈ sv then (expandDisp sv u n (i+1) j).map (fun v => 0 :: v)
    else
      match u.get? j with
      | some x => (expandDisp sv u n (i+1) (j+1)).map (fun v => x :: v)
      | none => .error .indexError

/-- Embeds `__Truss_Global_Displacement` (lines 138-156). -/
def Truss_Global_Displacement (displacements : List ℚ) (sv : List ℕ)
    (nodes : List (ℕ × Triple)) : Except PyErr (List ℚ) :=
  expandDisp (sv.map (fun x => x - 1)) displacements (3 * nodes.length) 0 0

/-- `np.round` on a scalar: round half to even. -/
def np_round (q : ℚ) : ℚ :=
  let f : ℤ := Int.floor q
  let r : ℚ := q - f
  if r < 1/2 then f
  else if 1/2 < r then f + 1
  else if 2 ∣ f then f else f + 1

/-- `np.round(x, 5)`: round to five decimal places, half to even. -/
def np_round5 (q : ℚ) : ℚ := np_round (q * 100000) / 100000

/-- Matrix–vector product `K.dot(v)` for a dense row-major matrix. -/
def matVec (K : List (List ℚ)) (v : List ℚ) : List ℚ :=
  K.map (fun row => (row.zipWith (fun a b => a * b) v).sum)

/-- Embeds `__Solve_Reactions` (lines 159-160). -/
def Solve_Reactions (K_global : List (List ℚ)) (displacement_vector : List ℚ) : List ℚ :=
  (matVec K_global displacement_vector).map np_round

/-- Embeds `__Element_Displacement` (lines 163-176). -/
def Element_Displacement (tr : Truss_3D) (element_number : ℕ)
    (global_displacement : List ℚ) : Except PyErr (List ℚ) := do
  let conn ← okOr (.keyError element_number) (dget tr.elements element_number)
  let fromNode := conn.1
  let toNode := conn.2
  let u : List ℤ := [3*(fromNode:ℤ) - 2, 3*(fromNode:ℤ) - 1, 3*(fromNode:ℤ),
                     3*(toNode:ℤ) - 2, 3*(toNode:ℤ) - 1, 3*(toNode:ℤ)]
  let elem ← u.mapM (fun u_node => npGet global_displacement (u_node - 1))
  pure (elem.map np_round5)

/-- Embeds `__Solve_Member_Force` (lines 179-187): the returned pair is
`k.dot(T.dot(displacement_vector[element-1]))` with `k = E*A/L·[[1,-1],[-1,1]]`.
The source comment marks the FIRST component as positive = compression; `Solve`
exposes the SECOND component. -/
def Solve_Member_Force (tr : Truss_3D) (element : ℕ)
    (displacement_vector : List (List ℚ)) : Except PyErr (ℚ × ℚ) :=
  match Direction_Cosines tr element with
  | .error e => .error e
  | .ok (cx, cy, cz, L) =>
    match npGet displacement_vector ((element : ℤ) - 1) with
    | .error e => .error e
    | .ok dv =>
      let u1 := cx * dv.getD 0 0 + cy * dv.getD 1 0 + cz * dv.getD 2 0
      let u2 := cx * dv.getD 3 0 + cy * dv.getD 4 0 + cz * dv.getD 5 0
      match dget tr.elasticity element with
      | none => .error (.keyError element)
      | some E =>
        match dget tr.cross_area element with
        | none => .error (.keyError element)
        | some A =>
          let a := E * A / L
          .ok (a * (u1 - u2), a * (u2 - u1))

/-- Embeds `__Solve_Member_Stress` (lines 190-198): as the force, with
`k = E/L·[[1,-1],[-1,1]]`. -/
def Solve_Member_Stress (tr : Truss_3D) (element : ℕ)
    (displacement_vector : List (List ℚ)) : Except PyErr (ℚ × ℚ) :=
  match Direction_Cosines tr element with
  | .error e => .error e
  | .ok (cx, cy, cz, L) =>
    match npGet displacement_vector ((element : ℤ) - 1) with
    | .error e => .error e
    | .ok dv =>
      let u1 := cx * dv.getD 0 0 + cy * dv.getD 1 0 + cz * dv.getD 2 0
      let u2 := cx * dv.getD 3 0 + cy * dv.getD 4 0 + cz * dv.getD 5 0
      match dget tr.elasticity element with
      | none => .error (.keyError element)
      | some E =>
        let s := E / L
        .ok (s * (u1 - u2), s * (u2 - u1))

/-- One Gauss–Jordan elimination step on the augmented matrix for column `c`:
pick the first row `r ≥ c` whose entry in column `c` is nonzero (exact
arithmetic: any nonzero pivot gives the unique inverse), normalise it, and
clear column `c` from every other row.  `none` signals a singular matrix,
modelling `numpy.linalg.LinAlgError`. -/
def elimStep (c : ℕ) (rows : List (List ℚ)) : Option (List (List ℚ)) :=
  match (List.range rows.length).find?
      (fun r => decide (c ≤ r) && ((rows.getD r []).getD c 0 != 0)) with
  | none => none
  | some r =>
    let rowR := rows.getD r []
    let rowC := rows.getD c []
    let swapped := (rows.set r rowC).set c rowR
    let pivot := rowR.getD c 0
    let prow := rowR.map (fun x => x / pivot)
    some (swapped.mapIdx (fun a row =>
      if a = c then prow
      else
        let factor := row.getD c 0
        row.zipWith (fun x p => x - factor * p) prow))

/-- Gauss–Jordan over all columns, with fuel. -/
def gaussLoop : ℕ → ℕ → List (List ℚ) → Option (List (List ℚ))
  | 0, _, rows => some rows
  | fuel+1, c, rows =>
    match elimStep c rows with
    | none => none
    | some rows' => gaussLoop fuel (c+1) rows'

/-- `np.linalg.inv`, idealised to exact rational arithmetic: the unique inverse
when it exists, `none` (a `LinAlgError`) when the matrix is singular. -/
def matInv (K : List (List ℚ)) : Option (List (List ℚ)) :=
  let n := K.length
  let aug := K.mapIdx (fun i row =>
    row ++ (List.range n).map (fun j => if j = i then (1:ℚ) else 0))
  (gaussLoop n 0 aug).map (fun rows => rows.map (fun row => row.drop n))

/-- Step 3 of `Solve` (lines 248-249): fold the element matrices into the
global matrix, looking the connectivity up by position key `i+1`. -/
def assembleLoop (elements : List (ℕ × (ℕ × ℕ))) :
    ℕ → List (Matrix (Fin 6) (Fin 6) ℚ) → List (List ℚ) → Except PyErr (List (List ℚ))
  | _, [], K => .ok K
  | i, k :: rest, K =>
    match dget elements (i+1) with
    | none => .error (.keyError (i+1))
    | some conn => assembleLoop elements (i+1) rest (Assemble_Global_Stiffness K k conn.1 conn.2)

/-- Steps 1-11 of `Solve` (lines 232-285), up to the point where the output
fields are assigned. -/
def SolvePipeline (tr : Truss_3D) :
    Except PyErr (List ℚ × List ℚ × List (ℕ × ℚ) × List (ℕ × ℚ) × List (List ℚ)) := do
  let nodes := tr.nodes
  let elements := tr.elements
  let _member_lengths ← elements.mapM (fun e => do
    let dc ← Direction_Cosines tr e.1
    pure dc.2.2.2)
  let k_elems ← elements.mapM (fun e => Assemble_Stiffness_Matrix tr e.1)
  let K_global ← assembleLoop elements 0 k_elems (zerosMat (3 * nodes.length))
  let sv ← Support_Vector tr.supports nodes
  let K_new := Apply_Boundary_Conditions sv K_global
  let f_new ← Assemble_Force_Vector tr.forces sv nodes
  match matInv K_new with
  | none => .error .linAlgError
  | some invK =>
    let displacements := matVec invK f_new
    let global_displacements ← Truss_Global_Displacement displacements sv nodes
    let reactions := Solve_Reactions K_global global_displacements
    let element_displacements ← elements.mapM
      (fun e => Element_Displacement tr e.1 global_displacements)
    let member_forces ← elements.mapM
      (fun e => Solve_Member_Force tr e.1 element_displacements)
    let member_forcesD ← elements.mapM (fun e => do
      let pair ← npGet member_forces ((e.1 : ℤ) - 1)
      pure (e.1, pair.2))
    let member_stresses ← elements.mapM
      (fun e => Solve_Member_Stress tr e.1 element_displacements)
    let member_stressesD ← elements.mapM (fun e => do
      let pair ← npGet member_stresses ((e.1 : ℤ) - 1)
      pure (e.1, pair.2))
    pure (global_displacements, reactions, member_forcesD, member_stressesD, K_global)

/-- The output fields of a `Truss_3D` instance.  `__init__` sets them to empty
lists; `none` models "not assigned by `Solve` yet". -/
structure SolveResult where
  displacements_ : Option (List ℚ)
  reactions_ : Option (List ℚ)
  member_forces_ : Option (List (ℕ × ℚ))
  member_stresses_ : Option (List (ℕ × ℚ))
  K_global_ : Option (List (List ℚ))
  member_lengths_ : Option (List (ℕ × ℚ))
deriving DecidableEq, Repr

/-- The field state right after `__init__`. -/
def blankResult : SolveResult := ⟨none, none, none, none, none, none⟩

/-- Embeds `Solve` (lines 201-298), returning the final field state together
with the exception, if any, that the call raises.  A pipeline error (lines
232-285) surfaces before any field is assigned.  Otherwise lines 289-293
assign five fields, and line 296 then evaluates `enumerate(L)` where `L` is
the scalar length left over from the Step-1 loop (the `member_lengths` list is
never used): iterating a numpy scalar raises `TypeError` — or `NameError` when
there are no elements and `L` was never bound — so `member_lengths_` is never
assigned and `Solve` never returns normally. -/
def Solve (tr : Truss_3D) : SolveResult × Option PyErr :=
  match SolvePipeline tr with
  | .error e => (blankResult, some e)
  | .ok (gd, re, mf, ms, Kg) =>
    ({ displacements_ := some gd, reactions_ := some re, member_forces_ := some mf,
       member_stresses_ := some ms, K_global_ := some Kg, member_lengths_ := none },
     some (if tr.elements.isEmpty then .nameError else .typeError))

/-- The spec's concrete scenario, exactly as stated: node 1 fully fixed, node 2
wholly free, E = 200, A = 1, force (-50, 0, 0) at node 2. -/
def exampleFree : Truss_3D :=
  { nodes := [(1, (0, 0, 0)), (2, (10, 0, 0))]
    elements := [(1, (1, 2))]
    supports := [(1, (1, 1, 1))]
    forces := [(2, (-50, 0, 0))]
    elasticity := [(1, 200)]
    cross_area := [(1, 1)] }

/-- The scenario with node 2 additionally restrained in y and z, which makes
the reduced stiffness matrix invertible. -/
def exampleSupported : Truss_3D :=
  { exampleFree with supports := [(1, (1, 1, 1)), (2, (0, 1, 1))] }

/-- A truss containing a zero-length element (both endpoints at (1,2,3)). -/
def exampleDegenerate : Truss_3D :=
  { nodes := [(1, (1, 2, 3)), (2, (1, 2, 3))]
    elements := [(1, (1, 2))]
    supports := [(1, (1, 1, 1))]
    forces := []
    elasticity := [(1, 200)]
    cross_area := [(1, 1)] }

/-- C1: on a node restrained with flags (fx, fy, fz) = (1, 0, 1) the code
produces the restrained-dof set [1]: dof 3 (the z dof) is NOT flagged even
though fz = 1, because line 94 copies flag fy into the z slot.  The claim
requires the set to be [1, 3]. -/
theorem support_vector_ignores_fz :
    Support_Vector [(1, (1, 0, 1))] [(1, (0, 0, 0))] = .ok [1] ∧
    3 ∉ ([1] : List ℕ) := by with_unfolding_all decide

/-- C2 counterexample: on the scenario exactly as the claim states it (node 2
wholly free), `Solve` does not succeed: the reduced stiffness matrix is
singular (node 2 has no stiffness in y and z), `np.linalg.inv` raises, and no
output is produced at all — in particular no member force, displacement or
reaction values are returned. -/
theorem solve_scenario_raises_singular :
    (Solve exampleFree).2 = some PyErr.linAlgError ∧
    (Solve exampleFree).1 = blankResult := by with_unfolding_all decide

/-- C2 amended: with node 2 additionally restrained in y and z (the minimal
change that makes the reduced system invertible), the solve computes
x-displacement -5/2 at node 2, reactions (50, 0, 0) at node 1, and the
member-force mapping {1 : -50} — the exposed scalar is -50, not 50, because
`Solve` exposes the second component of the local force pair, which is
negative in compression — and `Solve` still raises `TypeError` at the
member-lengths step after storing these outputs. -/
theorem solve_scenario_supported_values :
    (Solve exampleSupported).1.displacements_ = some [0, 0, 0, -5/2, 0, 0] ∧
    (Solve exampleSupported).1.reactions_ = some [50, 0, 0, -50, 0, 0] ∧
    (Solve exampleSupported).1.member_forces_ = some [(1, -50)] ∧
    (Solve exampleSupported).2 = some PyErr.typeError := by with_unfolding_all decide

/-- C4: for a non-empty element set, `Solve` never assigns the member-lengths
mapping: line 296 iterates `enumerate(L)` where `L` is the scalar leftover of
the Step-1 loop (the `member_lengths` list computed in Step 1 is never used),
which raises `TypeError`, so `member_lengths_` keeps its initial value. -/
theorem member_lengths_never_assigned :
    (Solve exampleSupported).1.member_lengths_ = none ∧
    (Solve exampleSupported).2 = some PyErr.typeError := by with_unfolding_all decide

/-- C5 counterexample: `Solve` raises on this input, yet the output fields are
mutated — the claim says a failing `Solve` mutates no output field. -/
theorem solve_mutates_despite_raising :
    (Solve exampleSupported).2.isSome ∧
    (Solve exampleSupported).1.displacements_.isSome ∧
    (Solve exampleSupported).1 ≠ blankResult := by with_unfolding_all decide

/-- C5 amended: `Solve` never returns normally.  Errors raised in the pipeline
(steps 1-11: key lookups, indexing, the singular reduced matrix) do leave
every output field unassigned; otherwise `Solve` assigns the five fields
`displacements_`, `reactions_`, `member_forces_`, `member_stresses_`,
`K_global_` and then raises at the member-lengths step, leaving the instance
in a half-updated state with `member_lengths_` never assigned. -/
theorem solve_failure_profile (tr : Truss_3D) :
    (Solve tr).2.isSome ∧
    ((Solve tr).1 = blankResult ∨
      ((Solve tr).1.displacements_.isSome ∧ (Solve tr).1.reactions_.isSome ∧
       (Solve tr).1.member_forces_.isSome ∧ (Solve tr).1.member_stresses_.isSome ∧
       (Solve tr).1.K_global_.isSome ∧ (Solve tr).1.member_lengths_ = none)) := by
  unfold Solve
  cases h : SolvePipeline tr with
  | error e => simp
  | ok v =>
    obtain ⟨gd, re, mf, ms, Kg⟩ := v
    simp

/-- C6: the code performs no zero-length check.  On an element whose two
endpoints coincide, `__Direction_Cosines` returns normally — no
`DegenerateElementError` (no such exception exists anywhere in the code) and
no abort: the float code divides by zero (producing nan) and the solve
continues; in this exact model the division by the zero length yields 0. -/
theorem degenerate_element_no_error :
    Direction_Cosines exampleDegenerate 1 = .ok (0, 0, 0, 0) := by with_unfolding_all decide

/-- The linearised elongation of an element: the axial (direction-cosine)
component of the displacement of the `to` end minus that of the `from` end.
Negative elongation means the axial length decreases (compression) to first
order, positive means it increases (tension). -/
def elong (cx cy cz : ℚ) (dv : List ℚ) : ℚ :=
  (cx * dv.getD 3 0 + cy * dv.getD 4 0 + cz * dv.getD 5 0) -
  (cx * dv.getD 0 0 + cy * dv.getD 1 0 + cz * dv.getD 2 0)

/-- C3 counterexample: in the solved supported scenario the element shortens
(its deformed length, computed from the returned global displacement vector,
is below its undeformed length 10), i.e. it is in compression — yet the scalar
stored in the member-force mapping returned by `Solve` is -50, which is not
positive.  The claim demands a positive scalar for a compressed element. -/
theorem member_force_sign_counterexample :
    (Solve exampleSupported).1.member_forces_ = some [(1, -50)] ∧
    Rat.sqrt
      (((10 + (((Solve exampleSupported).1.displacements_).getD []).getD 3 0) -
          (0 + (((Solve exampleSupported).1.displacements_).getD []).getD 0 0))^2 +
       ((0 + (((Solve exampleSupported).1.displacements_).getD []).getD 4 0) -
          (0 + (((Solve exampleSupported).1.displacements_).getD []).getD 1 0))^2 +
       ((0 + (((Solve exampleSupported).1.displacements_).getD []).getD 5 0) -
          (0 + (((Solve exampleSupported).1.displacements_).getD []).getD 2 0))^2) < 10 ∧
    ¬ (0 < ((-50 : ℚ))) := by with_unfolding_all decide

/-- C3 amended: the pair returned by `__Solve_Member_Force` is
`(-(E·A/L)·elong, (E·A/L)·elong)` and the pair returned by
`__Solve_Member_Stress` is `(-(E/L)·elong, (E/L)·elong)`.  `Solve` exposes the
SECOND component, which (for positive `E·A/L`) is negative exactly when the
element shortens axially (compression) and positive when it lengthens
(tension) — i.e. the exposed scalar follows the `Solve` docstring convention
positive = tension, the opposite of the claim.  The first, unexposed component
carries the positive = compression convention of the source comment. -/
theorem member_force_sign_convention (tr : Truss_3D) (element : ℕ)
    (dvs : List (List ℚ)) (cx cy cz L E A : ℚ) (dv : List ℚ)
    (hdc : Direction_Cosines tr element = .ok (cx, cy, cz, L))
    (hdv : npGet dvs ((element : ℤ) - 1) = .ok dv)
    (hE : dget tr.elasticity element = some E)
    (hA : dget tr.cross_area element = some A) :
    Solve_Member_Force tr element dvs =
      .ok (-(E * A / L * elong cx cy cz dv), E * A / L * elong cx cy cz dv) ∧
    Solve_Member_Stress tr element dvs =
      .ok (-(E / L * elong cx cy cz dv), E / L * elong cx cy cz dv) ∧
    (0 < E * A / L → elong cx cy cz dv < 0 → E * A / L * elong cx cy cz dv < 0) ∧
    (0 < E * A / L → 0 < elong cx cy cz dv → 0 < E * A / L * elong cx cy cz dv) := by
  refine ⟨?_, ?_, ?_, ?_⟩
  · simp only [Solve_Member_Force, hdc, hdv, hE, hA]
    refine congrArg Except.ok (Prod.ext ?_ ?_) <;> (simp [elong]; try ring)
  · simp only [Solve_Member_Stress, hdc, hdv, hE]
    refine congrArg Except.ok (Prod.ext ?_ ?_) <;> (simp [elong]; try ring)
  · exact fun h1 h2 => mul_neg_of_pos_of_neg h1 h2
  · exact fun h1 h2 => mul_pos h1 h2

/-- Witness for `member_force_sign_convention`: the supported scenario's
element 1 with its solved element displacement list. -/
theorem member_force_sign_convention_witness :
    Direction_Cosines exampleSupported 1 = .ok (1, 0, 0, 10) ∧
    npGet [[(0:ℚ), 0, 0, -5/2, 0, 0]] ((1 : ℤ) - 1) = .ok [(0:ℚ), 0, 0, -5/2, 0, 0] ∧
    dget exampleSupported.elasticity 1 = some 200 ∧
    dget exampleSupported.cross_area 1 = some 1 ∧
    (Solve_Member_Force exampleSupported 1 [[(0:ℚ), 0, 0, -5/2, 0, 0]] =
        .ok (-(200 * 1 / 10 * elong 1 0 0 [(0:ℚ), 0, 0, -5/2, 0, 0]),
             200 * 1 / 10 * elong 1 0 0 [(0:ℚ), 0, 0, -5/2, 0, 0]) ∧
     Solve_Member_Stress exampleSupported 1 [[(0:ℚ), 0, 0, -5/2, 0, 0]] =
        .ok (-(200 / 10 * elong 1 0 0 [(0:ℚ), 0, 0, -5/2, 0, 0]),
             200 / 10 * elong 1 0 0 [(0:ℚ), 0, 0, -5/2, 0, 0]) ∧
     (0 < (200 : ℚ) * 1 / 10 → elong 1 0 0 [(0:ℚ), 0, 0, -5/2, 0, 0] < 0 →
        200 * 1 / 10 * elong 1 0 0 [(0:ℚ), 0, 0, -5/2, 0, 0] < 0) ∧
     (0 < (200 : ℚ) * 1 / 10 → 0 < elong 1 0 0 [(0:ℚ), 0, 0, -5/2, 0, 0] →
        0 < 200 * 1 / 10 * elong 1 0 0 [(0:ℚ), 0, 0, -5/2, 0, 0])) :=
  ⟨by with_unfolding_all decide, by with_unfolding_all decide,
   by with_unfolding_all decide, by with_unfolding_all decide,
   member_force_sign_convention exampleSupported 1 [[(0:ℚ), 0, 0, -5/2, 0, 0]]
     1 0 0 10 200 1 [(0:ℚ), 0, 0, -5/2, 0, 0]
     (by with_unfolding_all decide) (by with_unfolding_all decide)
     (by with_unfolding_all decide) (by with_unfolding_all decide)⟩

/-- Number of free (unrestrained) 0-based indices in the window `[i, i+n)`,
relative to the 0-based restrained index list `sv`. -/
def countFree (sv : List ℕ) : ℕ → ℕ → ℕ
  | _, 0 => 0
  | i, n+1 => (if i ∈ sv then 0 else 1) + countFree sv (i+1) n

/-- The scatter loop produces, for each window position, `0` at restrained
indices and the next unread entry of `u` at free indices. -/
lemma expandDisp_ok (sv : List ℕ) (u : List ℚ) :
    ∀ (n i j : ℕ), j + countFree sv i n ≤ u.length →
    ∃ v, expandDisp sv u n i j = .ok v ∧ v.length = n ∧
      ∀ t, t < n →
        v.getD t 0 = if (i+t) ∈ sv then 0 else u.getD (j + countFree sv i t) 0 := by
  intro n
  induction n with
  | zero =>
    intro i j _
    exact ⟨[], rfl, rfl, fun t ht => absurd ht (Nat.not_lt_zero t)⟩
  | succ n ih =>
    intro i j h
    by_cases hi : i ∈ sv
    · have h' : j + countFree sv (i+1) n ≤ u.length := by
        simpa [countFree, hi] using h
      obtain ⟨v, hv, hlen, hval⟩ := ih (i+1) j h'
      refine ⟨0 :: v, ?_, by simp [hlen], ?_⟩
      · simp [expandDisp, hi, hv, Except.map]
      · intro t ht
        cases t with
        | zero => simp [hi]
        | succ t =>
          have h2 := hval t (Nat.lt_of_succ_lt_succ ht)
          have e1 : i + (t+1) = (i+1) + t := by omega
          have e2 : j + countFree sv i (t+1) = j + countFree sv (i+1) t := by
            simp [countFree, hi]
          simp only [List.getD_cons_succ]
          rw [e1, e2]
          exact h2
    · have hone : countFree sv i (n+1) = 1 + countFree sv (i+1) n := by
        simp [countFree, hi]
      rw [hone] at h
      have hj : j < u.length := by omega
      have hget : u[j]? = some u[j] := List.getElem?_eq_getElem hj
      have h' : (j+1) + countFree sv (i+1) n ≤ u.length := by omega
      obtain ⟨v, hv, hlen, hval⟩ := ih (i+1) (j+1) h'
      refine ⟨u[j] :: v, ?_, by simp [hlen], ?_⟩
      · simp [expandDisp, hi, hget, hv, Except.map]
      · intro t ht
        cases t with
        | zero =>
          simp only [List.getD_cons_zero]
          rw [if_neg (by simpa using hi)]
          simp [countFree, List.getD_eq_getElem?_getD, hget]
        | succ t =>
          have h2 := hval t (Nat.lt_of_succ_lt_succ ht)
          have e1 : i + (t+1) = (i+1) + t := by omega
          have e2 : j + countFree sv i (t+1) = (j+1) + countFree sv (i+1) t := by
            simp [countFree, hi]
            omega
          simp only [List.getD_cons_succ]
          rw [e1, e2]
          exact h2

/-- C7: `__Truss_Global_Displacement` scatters the reduced solution into the
full `3N` vector.  For a restrained-dof list whose (1-based) entries are
positive and a reduced vector long enough to fill the free slots, the
expansion succeeds, has length `3N`, reads exactly `0` at every restrained dof
index, and the free dofs, visited in ascending global index order, consume the
reduced vector sequentially: the dof at 0-based index `i` with `k` free dofs
before it receives entry `k` of the reduced vector. -/
theorem truss_global_displacement_spec (displacements : List ℚ) (sv : List ℕ)
    (nodes : List (ℕ × Triple))
    (hpos : ∀ s ∈ sv, 1 ≤ s)
    (hlen : countFree (sv.map (fun x => x - 1)) 0 (3 * nodes.length) ≤
      displacements.length) :
    ∃ v, Truss_Global_Displacement displacements sv nodes = .ok v ∧
      v.length = 3 * nodes.length ∧
      ∀ i, i < 3 * nodes.length →
        ((i + 1) ∈ sv → v.getD i 0 = 0) ∧
        ((i + 1) ∉ sv → v.getD i 0 =
          displacements.getD (countFree (sv.map (fun x => x - 1)) 0 i) 0) := by
  have hmem : ∀ i : ℕ, (i ∈ sv.map (fun x => x - 1)) ↔ (i + 1) ∈ sv := by
    intro i
    simp only [List.mem_map]
    constructor
    · rintro ⟨s, hs, rfl⟩
      have h1 := hpos s hs
      have h2 : s - 1 + 1 = s := by omega
      rwa [h2]
    · intro hmm
      exact ⟨i + 1, hmm, by omega⟩
  obtain ⟨v, hv, hlen2, hval⟩ :=
    expandDisp_ok (sv.map (fun x => x - 1)) displacements (3 * nodes.length) 0 0
      (by simpa using hlen)
  refine ⟨v, hv, hlen2, ?_⟩
  intro i hi
  have hvi := hval i hi
  simp only [Nat.zero_add] at hvi
  constructor
  · intro hin
    rw [hvi, if_pos ((hmem i).mpr hin)]
  · intro hout
    rw [hvi, if_neg (fun hc => hout ((hmem i).mp hc))]

/-- Witness for `truss_global_displacement_spec`: the restrained-dof list of
the supported scenario and its reduced solution. -/
theorem truss_global_displacement_spec_witness :
    (∀ s ∈ [1, 2, 3, 5, 6], 1 ≤ s) ∧
    countFree ([1, 2, 3, 5, 6].map (fun x => x - 1)) 0 (3 * exampleSupported.nodes.length) ≤
      ([(-5 : ℚ)/2]).length ∧
    (∃ v, Truss_Global_Displacement [(-5 : ℚ)/2] [1, 2, 3, 5, 6] exampleSupported.nodes = .ok v ∧
      v.length = 3 * exampleSupported.nodes.length ∧
      ∀ i, i < 3 * exampleSupported.nodes.length →
        ((i + 1) ∈ [1, 2, 3, 5, 6] → v.getD i 0 = 0) ∧
        ((i + 1) ∉ [1, 2, 3, 5, 6] → v.getD i 0 =
          ([(-5 : ℚ)/2]).getD (countFree ([1, 2, 3, 5, 6].map (fun x => x - 1)) 0 i) 0)) :=
  ⟨by decide, by decide,
   truss_global_displacement_spec [(-5 : ℚ)/2] [1, 2, 3, 5, 6] exampleSupported.nodes
     (by decide) (by decide)⟩

/-- Composing two pointwise row additions adds the sum of the contributions. -/
lemma addContribRow_add (c c' : ℕ → ℚ) :
    ∀ (b : ℕ) (row : List ℚ),
      addContribRow c b (addContribRow c' b row) =
      addContribRow (fun x => c' x + c x) b row := by
  intro b row
  induction row generalizing b with
  | nil => rfl
  | cons v rest ih =>
    simp only [addContribRow, ih]
    congr 1
    ring

/-- Composing two pointwise matrix additions adds the sum of the contributions. -/
lemma addContrib_add (c c' : ℕ → ℕ → ℚ) :
    ∀ (a : ℕ) (K : List (List ℚ)),
      addContrib c a (addContrib c' a K) =
      addContrib (fun x y => c' x y + c x y) a K := by
  intro a K
  induction K generalizing a with
  | nil => rfl
  | cons row rest ih =>
    simp only [addContrib, ih]
    congr 1
    exact addContribRow_add (c a) (c' a) 0 row

/-- Scatter-adding preserves the matrix dimensions. -/
lemma addContrib_length (c : ℕ → ℕ → ℚ) :
    ∀ (a : ℕ) (K : List (List ℚ)), (addContrib c a K).length = K.length := by
  intro a K
  induction K generalizing a with
  | nil => rfl
  | cons row rest ih => simp [addContrib, ih]

/-- Two scatter-add steps commute: each step adds a contribution that depends
only on its own element data, and rational addition is commutative. -/
lemma Assemble_Global_Stiffness_comm (K : List (List ℚ))
    (k1 k2 : Matrix (Fin 6) (Fin 6) ℚ) (i1 j1 i2 j2 : ℕ) :
    Assemble_Global_Stiffness (Assemble_Global_Stiffness K k1 i1 j1) k2 i2 j2 =
    Assemble_Global_Stiffness (Assemble_Global_Stiffness K k2 i2 j2) k1 i1 j1 := by
  unfold Assemble_Global_Stiffness
  rw [addContrib_length, addContrib_length, addContrib_add, addContrib_add]
  congr 1
  funext x y
  ring

/-- The Step-3 accumulation of `Solve`, abstracted over the processing order:
fold the element blocks (with their endpoint node indices) into a starting
global matrix. -/
def assembleAll (l : List (Matrix (Fin 6) (Fin 6) ℚ × ℕ × ℕ))
    (K0 : List (List ℚ)) : List (List ℚ) :=
  l.foldl (fun K e => Assemble_Global_Stiffness K e.1 e.2.1 e.2.2) K0

/-- Folding the element blocks is invariant under permuting the list. -/
lemma assembleAll_perm {l l' : List (Matrix (Fin 6) (Fin 6) ℚ × ℕ × ℕ)}
    (h : l.Perm l') : ∀ K0, assembleAll l K0 = assembleAll l' K0 := by
  induction h with
  | nil => intro K0; rfl
  | cons x h ih =>
    intro K0
    simp only [assembleAll, List.foldl] at ih ⊢
    exact ih _
  | swap x y l =>
    intro K0
    simp only [assembleAll, List.foldl]
    rw [Assemble_Global_Stiffness_comm]
  | trans h1 h2 ih1 ih2 => intro K0; rw [ih1, ih2]

/-- C8: accumulating each element's 6×6 block once into the zero-initialised
`3N × 3N` global matrix, at the dofs of its endpoint nodes, yields the same
global stiffness matrix for every processing order. -/
theorem global_assembly_order_independent (N : ℕ)
    (l l' : List (Matrix (Fin 6) (Fin 6) ℚ × ℕ × ℕ)) (h : l.Perm l') :
    assembleAll l (zerosMat (3 * N)) = assembleAll l' (zerosMat (3 * N)) :=
  assembleAll_perm h _

/-- Witness for `global_assembly_order_independent`: two element blocks
processed in both orders. -/
theorem global_assembly_order_independent_witness :
    ([(stiffK 1 0 0 200 1 10, (1, 2)), (stiffK 0 1 0 100 2 5, (2, 3))].Perm
      [(stiffK 0 1 0 100 2 5, (2, 3)), (stiffK 1 0 0 200 1 10, (1, 2))]) ∧
    assembleAll [(stiffK 1 0 0 200 1 10, (1, 2)), (stiffK 0 1 0 100 2 5, (2, 3))]
        (zerosMat (3 * 3)) =
      assembleAll [(stiffK 0 1 0 100 2 5, (2, 3)), (stiffK 1 0 0 200 1 10, (1, 2))]
        (zerosMat (3 * 3)) :=
  ⟨List.Perm.swap _ _ _,
   global_assembly_order_independent 3 _ _ (List.Perm.swap _ _ _)⟩

/-- The difference of the two rows of `T`: `(cx, cy, cz, -cx, -cy, -cz)`. -/
def wvec (cx cy cz : ℚ) : Fin 6 → ℚ := ![cx, cy, cz, -cx, -cy, -cz]

/-- `Tᵗ·k·T` is the rank-one outer product `(E·A/L) · w wᵗ` for
`w = (cx, cy, cz, -cx, -cy, -cz)`. -/
lemma stiffK_eq_vecMulVec (cx cy cz E A L : ℚ) :
    stiffK cx cy cz E A L =
      Matrix.vecMulVec (fun p => (E * A / L) * wvec cx cy cz p) (wvec cx cy cz) := by
  have hw : ∀ i, wvec cx cy cz i = Tmat cx cy cz 0 i - Tmat cx cy cz 1 i := by
    intro i
    fin_cases i
    · show cx = cx - 0; ring
    · show cy = cy - 0; ring
    · show cz = cz - 0; ring
    · show -cx = 0 - cx; ring
    · show -cy = 0 - cy; ring
    · show -cz = 0 - cz; ring
  ext i j
  simp only [stiffK, Matrix.mul_apply, Fin.sum_univ_two, Matrix.transpose_apply,
    Matrix.vecMulVec_apply, kLocal, Matrix.smul_apply]
  norm_num
  rw [hw i, hw j]
  ring

/-- The element stiffness matrix is symmetric. -/
lemma stiffK_symm (cx cy cz E A L : ℚ) :
    (stiffK cx cy cz E A L)ᵀ = stiffK cx cy cz E A L := by
  rw [stiffK_eq_vecMulVec]
  ext i j
  simp only [Matrix.transpose_apply, Matrix.vecMulVec_apply]
  ring

/-- The element stiffness matrix has rank at most one. -/
lemma stiffK_rank_le_one (cx cy cz E A L : ℚ) :
    (stiffK cx cy cz E A L).rank ≤ 1 := by
  rw [stiffK_eq_vecMulVec, Matrix.vecMulVec_eq (Fin 1)]
  refine le_trans (Matrix.rank_mul_le_left _ _) ?_
  refine le_trans (Matrix.rank_le_card_width _) ?_
  simp

/-- C9: under the element's direction cosines and properties,
`__Assemble_Stiffness_Matrix` returns exactly `Tᵗ·k·T` with
`k = (E·A/L)·[[1,-1],[-1,1]]` and `T = [[cx,cy,cz,0,0,0],[0,0,0,cx,cy,cz]]`,
and this 6×6 matrix is symmetric with rank at most 1. -/
theorem element_stiffness_spec (tr : Truss_3D) (element : ℕ)
    (cx cy cz L E A : ℚ)
    (hdc : Direction_Cosines tr element = .ok (cx, cy, cz, L))
    (hE : dget tr.elasticity element = some E)
    (hA : dget tr.cross_area element = some A)
    (_hL : 0 < L) :
    Assemble_Stiffness_Matrix tr element = .ok (stiffK cx cy cz E A L) ∧
    stiffK cx cy cz E A L = (Tmat cx cy cz)ᵀ * kLocal (E * A / L) * Tmat cx cy cz ∧
    (stiffK cx cy cz E A L)ᵀ = stiffK cx cy cz E A L ∧
    (stiffK cx cy cz E A L).rank ≤ 1 := by
  refine ⟨?_, rfl, stiffK_symm cx cy cz E A L, stiffK_rank_le_one cx cy cz E A L⟩
  simp only [Assemble_Stiffness_Matrix, hdc, hE, hA]

/-- Witness for `element_stiffness_spec`: element 1 of the supported scenario. -/
theorem element_stiffness_spec_witness :
    Direction_Cosines exampleSupported 1 = .ok (1, 0, 0, 10) ∧
    dget exampleSupported.elasticity 1 = some 200 ∧
    dget exampleSupported.cross_area 1 = some 1 ∧
    (0 : ℚ) < 10 ∧
    (Assemble_Stiffness_Matrix exampleSupported 1 = .ok (stiffK 1 0 0 200 1 10) ∧
     stiffK 1 0 0 200 1 10 = (Tmat 1 0 0)ᵀ * kLocal (200 * 1 / 10) * Tmat 1 0 0 ∧
     (stiffK 1 0 0 200 1 10)ᵀ = stiffK 1 0 0 200 1 10 ∧
     (stiffK 1 0 0 200 1 10).rank ≤ 1) :=
  ⟨by with_unfolding_all decide, by with_unfolding_all decide,
   by with_unfolding_all decide, by norm_num,
   element_stiffness_spec exampleSupported 1 1 0 0 10 200 1
     (by with_unfolding_all decide) (by with_unfolding_all decide)
     (by with_unfolding_all decide) (by norm_num)⟩

/-- A dictionary lookup succeeds exactly when the key occurs in the key list. -/
lemma dget_isSome (d : List (ℕ × α)) (k : ℕ) :
    (dget d k).isSome ↔ k ∈ d.map Prod.fst := by
  unfold dget
  rw [Option.isSome_map']
  rw [List.find?_isSome]
  constructor
  · rintro ⟨x, hx, he⟩
    have he' : x.1 = k := by simpa using he
    exact List.mem_map.mpr ⟨x, hx, he'⟩
  · intro h
    obtain ⟨x, hx, he⟩ := List.mem_map.mp h
    refine ⟨x, hx, ?_⟩
    simpa using he

/-- `npGet` at a nonnegative in-range index reads exactly that entry. -/
lemma npGet_eq_ok (l : List ℚ) (idx : ℤ) (n : ℕ) (hidx : idx = (n : ℤ))
    (hn : n < l.length) : npGet l idx = .ok (l.getD n 0) := by
  subst hidx
  have h0 : ¬ ((n:ℤ) < 0) := by omega
  have hp : (0:ℤ) ≤ (n:ℤ) := by omega
  have ht : ((n:ℤ)).toNat = n := by omega
  simp only [npGet, if_neg h0, ht, List.get?_eq_getElem?, List.getElem?_eq_getElem hn,
    if_pos hp]
  simp [List.getD_eq_getElem?_getD, List.getElem?_eq_getElem hn]

/-- `npGet` at an index at or beyond the array length raises `IndexError`. -/
lemma npGet_eq_err (l : List ℚ) (idx : ℤ) (hge : (l.length : ℤ) ≤ idx) :
    npGet l idx = .error .indexError := by
  have h0 : ¬ (idx < 0) := by omega
  have hnone : l.get? idx.toNat = none := by
    rw [List.get?_eq_getElem?]
    rw [List.getElem?_eq_none]
    omega
  simp only [npGet, if_neg h0, hnone]

/-- `npGet` at a negative index in `[-len, 0)` silently wraps around, reading
the entry at `idx + len` without any exception — numpy negative indexing. -/
lemma npGet_eq_ok_wrap (l : List ℚ) (idx : ℤ) (n : ℕ) (hneg : idx < 0)
    (hidx : idx + l.length = (n : ℤ)) (hn : n < l.length) :
    npGet l idx = .ok (l.getD n 0) := by
  have ht : (idx + (l.length:ℤ)).toNat = n := by omega
  have h0 : 0 ≤ idx + (l.length:ℤ) := by omega
  simp only [npGet, if_pos hneg, ht, List.get?_eq_getElem?, List.getElem?_eq_getElem hn,
    if_pos h0]
  simp [List.getD_eq_getElem?_getD, List.getElem?_eq_getElem hn]

/-- Bind on an `ok` value runs the continuation. -/
lemma except_bind_ok (a : α) (k : α → Except PyErr β) :
    (Except.ok a >>= k) = k a := rfl

/-- Bind on an error propagates the error, modelling exception propagation. -/
lemma except_bind_err (e : PyErr) (k : α → Except PyErr β) :
    ((Except.error e : Except PyErr α) >>= k) = Except.error e := rfl

/-- `pure` for `Except` is `ok`. -/
lemma except_pure (a : α) : (pure a : Except PyErr α) = Except.ok a := rfl

/-- C10: identifiers must be exactly the consecutive 1-based integers.
Element half: the Step-3 assembly loop of `Solve` looks the connectivity of
the `i`-th element block up by the integer key `i+1` (`elements[i+1]`).  For a
duplicate-free element dictionary with `n` entries, every one of these `n`
lookups succeeds exactly when the element identifiers are precisely `1..n`;
whenever any identifier falls outside `1..n` (non-contiguous, not starting at
1, or zero) some lookup raises `KeyError`.  Under that same precondition every
identifier also satisfies `key - 1 < n`, so the `member_forces[key-1]` /
`member_stresses[key-1]` list indexings of Steps 10-11 are in range.
Node half: `__Element_Displacement` reads the global displacement vector at
the 0-based positions `3·id-3 .. 3·id-1` obtained from the raw node
identifiers by the arithmetic `u_node - 1` with `u_node ∈ {3·id-2, 3·id-1,
3·id}`.  On a `3N`-entry vector these reads return exactly the node's own
three dof slots when both endpoint identifiers lie in `1..N`; an identifier
above `N` makes the read go out of range, so `__Element_Displacement` raises
`IndexError`; and an identifier of `0` produces the read index `-3`, which
numpy indexing silently wraps to position `3N-3` — node `N`'s x slot, i.e. it
addresses the wrong dof without an error. -/
theorem assembly_requires_consecutive_ids (es : List (ℕ × (ℕ × ℕ)))
    (hnd : (es.map Prod.fst).Nodup)
    (tr : Truss_3D) (e f t N : ℕ) (gd : List ℚ)
    (hconn : dget tr.elements e = some (f, t))
    (hgd : gd.length = 3 * N) :
    ((∀ i, i < es.length → (dget es (i+1)).isSome) ↔
      (∀ k ∈ es.map Prod.fst, 1 ≤ k ∧ k ≤ es.length)) ∧
    ((∀ k ∈ es.map Prod.fst, 1 ≤ k ∧ k ≤ es.length) →
      ∀ k ∈ es.map Prod.fst, k - 1 < es.length) ∧
    (1 ≤ f → f ≤ N → 1 ≤ t → t ≤ N →
      Element_Displacement tr e gd =
        .ok (([gd.getD (3*f - 3) 0, gd.getD (3*f - 2) 0, gd.getD (3*f - 1) 0,
               gd.getD (3*t - 3) 0, gd.getD (3*t - 2) 0,
               gd.getD (3*t - 1) 0]).map np_round5)) ∧
    (N < f → Element_Displacement tr e gd = .error .indexError) ∧
    (1 ≤ f → f ≤ N → N < t → Element_Displacement tr e gd = .error .indexError) ∧
    (0 < N → npGet gd (3*(0:ℤ) - 2 - 1) = .ok (gd.getD (3*N - 3) 0)) := by
  have hlen : (es.map Prod.fst).length = es.length := List.length_map _ _
  have hcard : (es.map Prod.fst).toFinset.card = es.length := by
    rw [List.toFinset_card_of_nodup hnd, hlen]
  refine ⟨⟨?_, ?_⟩, ?_, ?_, ?_, ?_, ?_⟩
  · intro hall k hk
    have hsub : Finset.Icc 1 es.length ⊆ (es.map Prod.fst).toFinset := by
      intro m hm
      simp only [Finset.mem_Icc] at hm
      have hsome : (dget es m).isSome := by
        have h1 := hall (m - 1) (by omega)
        have h2 : m - 1 + 1 = m := by omega
        rwa [h2] at h1
      rw [dget_isSome] at hsome
      simpa [List.mem_toFinset] using hsome
    have heq : Finset.Icc 1 es.length = (es.map Prod.fst).toFinset :=
      Finset.eq_of_subset_of_card_le hsub (by rw [hcard, Nat.card_Icc]; omega)
    have hkm : k ∈ Finset.Icc 1 es.length := by
      rw [heq]
      simpa [List.mem_toFinset] using hk
    simpa [Finset.mem_Icc] using hkm
  · intro hball i hi
    rw [dget_isSome]
    have hsub : (es.map Prod.fst).toFinset ⊆ Finset.Icc 1 es.length := by
      intro m hm
      have hb := hball m (by simpa [List.mem_toFinset] using hm)
      simp only [Finset.mem_Icc]
      omega
    have heq : (es.map Prod.fst).toFinset = Finset.Icc 1 es.length :=
      Finset.eq_of_subset_of_card_le hsub (by rw [hcard, Nat.card_Icc]; omega)
    have : (i + 1) ∈ (es.map Prod.fst).toFinset := by
      rw [heq]
      simp only [Finset.mem_Icc]
      omega
    simpa [List.mem_toFinset] using this
  · intro hb k hk
    have := hb k hk
    omega
  · intro hf1 hfN ht1 htN
    have r1 : npGet gd (3*(f:ℤ) - 2 - 1) = .ok (gd.getD (3*f - 3) 0) :=
      npGet_eq_ok gd _ (3*f - 3) (by omega) (by omega)
    have r2 : npGet gd (3*(f:ℤ) - 1 - 1) = .ok (gd.getD (3*f - 2) 0) :=
      npGet_eq_ok gd _ (3*f - 2) (by omega) (by omega)
    have r3 : npGet gd (3*(f:ℤ) - 1) = .ok (gd.getD (3*f - 1) 0) :=
      npGet_eq_ok gd _ (3*f - 1) (by omega) (by omega)
    have r4 : npGet gd (3*(t:ℤ) - 2 - 1) = .ok (gd.getD (3*t - 3) 0) :=
      npGet_eq_ok gd _ (3*t - 3) (by omega) (by omega)
    have r5 : npGet gd (3*(t:ℤ) - 1 - 1) = .ok (gd.getD (3*t - 2) 0) :=
      npGet_eq_ok gd _ (3*t - 2) (by omega) (by omega)
    have r6 : npGet gd (3*(t:ℤ) - 1) = .ok (gd.getD (3*t - 1) 0) :=
      npGet_eq_ok gd _ (3*t - 1) (by omega) (by omega)
    simp only [Element_Displacement, hconn, okOr, except_bind_ok, List.mapM_cons,
      List.mapM_nil, r1, r2, r3, r4, r5, r6, except_pure, except_bind_err]
  · intro hNf
    have r1 : npGet gd (3*(f:ℤ) - 2 - 1) = .error .indexError :=
      npGet_eq_err gd _ (by omega)
    simp only [Element_Displacement, hconn, okOr, except_bind_ok, List.mapM_cons,
      r1, except_bind_err]
  · intro hf1 hfN hNt
    have r1 : npGet gd (3*(f:ℤ) - 2 - 1) = .ok (gd.getD (3*f - 3) 0) :=
      npGet_eq_ok gd _ (3*f - 3) (by omega) (by omega)
    have r2 : npGet gd (3*(f:ℤ) - 1 - 1) = .ok (gd.getD (3*f - 2) 0) :=
      npGet_eq_ok gd _ (3*f - 2) (by omega) (by omega)
    have r3 : npGet gd (3*(f:ℤ) - 1) = .ok (gd.getD (3*f - 1) 0) :=
      npGet_eq_ok gd _ (3*f - 1) (by omega) (by omega)
    have r4 : npGet gd (3*(t:ℤ) - 2 - 1) = .error .indexError :=
      npGet_eq_err gd _ (by omega)
    simp only [Element_Displacement, hconn, okOr, except_bind_ok, List.mapM_cons,
      r1, r2, r3, r4, except_bind_err]
  · intro hN
    exact npGet_eq_ok_wrap gd _ (3*N - 3) (by omega) (by omega) (by omega)

/-- Witness for `assembly_requires_consecutive_ids`: the one-element
dictionary of the supported example scenario, with its two nodes `1` and `2`
and its solved six-entry global displacement vector. -/
theorem assembly_requires_consecutive_ids_witness :
    (([((1:ℕ), ((1:ℕ), (2:ℕ)))].map Prod.fst).Nodup) ∧
    dget exampleSupported.elements 1 = some (1, 2) ∧
    ([(0:ℚ), 0, 0, -5/2, 0, 0]).length = 3 * 2 ∧
    (((∀ i, i < [((1:ℕ), ((1:ℕ), (2:ℕ)))].length →
        (dget [((1:ℕ), ((1:ℕ), (2:ℕ)))] (i+1)).isSome) ↔
      (∀ k ∈ [((1:ℕ), ((1:ℕ), (2:ℕ)))].map Prod.fst,
        1 ≤ k ∧ k ≤ [((1:ℕ), ((1:ℕ), (2:ℕ)))].length)) ∧
    ((∀ k ∈ [((1:ℕ), ((1:ℕ), (2:ℕ)))].map Prod.fst,
        1 ≤ k ∧ k ≤ [((1:ℕ), ((1:ℕ), (2:ℕ)))].length) →
      ∀ k ∈ [((1:ℕ), ((1:ℕ), (2:ℕ)))].map Prod.fst,
        k - 1 < [((1:ℕ), ((1:ℕ), (2:ℕ)))].length) ∧
    (1 ≤ 1 → 1 ≤ 2 → 1 ≤ 2 → 2 ≤ 2 →
      Element_Displacement exampleSupported 1 [(0:ℚ), 0, 0, -5/2, 0, 0] =
        .ok (([([(0:ℚ), 0, 0, -5/2, 0, 0]).getD (3*1 - 3) 0,
               ([(0:ℚ), 0, 0, -5/2, 0, 0]).getD (3*1 - 2) 0,
               ([(0:ℚ), 0, 0, -5/2, 0, 0]).getD (3*1 - 1) 0,
               ([(0:ℚ), 0, 0, -5/2, 0, 0]).getD (3*2 - 3) 0,
               ([(0:ℚ), 0, 0, -5/2, 0, 0]).getD (3*2 - 2) 0,
               ([(0:ℚ), 0, 0, -5/2, 0, 0]).getD (3*2 - 1) 0]).map np_round5)) ∧
    (2 < 1 → Element_Displacement exampleSupported 1 [(0:ℚ), 0, 0, -5/2, 0, 0] =
      .error .indexError) ∧
    (1 ≤ 1 → 1 ≤ 2 → 2 < 2 →
      Element_Displacement exampleSupported 1 [(0:ℚ), 0, 0, -5/2, 0, 0] =
        .error .indexError) ∧
    (0 < 2 → npGet [(0:ℚ), 0, 0, -5/2, 0, 0] (3*(0:ℤ) - 2 - 1) =
      .ok (([(0:ℚ), 0, 0, -5/2, 0, 0]).getD (3*2 - 3) 0))) :=
  ⟨by decide, by with_unfolding_all decide, by with_unfolding_all decide,
   assembly_requires_consecutive_ids [((1:ℕ), ((1:ℕ), (2:ℕ)))] (by decide)
     exampleSupported 1 1 2 2 [(0:ℚ), 0, 0, -5/2, 0, 0]
     (by with_unfolding_all decide) (by with_unfolding_all decide)⟩
